import Mathlib

/-!
Verification of the asynchronous dispatch subsystem: a shallow embedding of
the send service (dispatch planner), the batch/message record model, the
rate-limited Line channel, the channel factory, the worker consumer loop and
the message handler, with theorems checking the specified properties.
-/

/-- A recipient as consumed by the service: the values extracted from the
request dict via recipient.get with defaults for id and type. -/
structure Recipient where
  rid : String
  rtype : String
deriving Repr, DecidableEq

/-- shared/models/message_send_record.py MessageSendRecord: one row per
recipient, with status, error and timestamp columns. Timestamps are abstract
ticks. -/
structure MessageSendRecord where
  id : Nat
  batch_id : String
  channel : String
  content : String
  recipient_id : String
  recipient_type : String
  status : String
  error_message : Option String
  sent_at : Option Nat
  created_at : Nat
  updated_at : Nat
deriving Repr, DecidableEq

/-- mark_as_sending: unconditionally sets status to sending and bumps
updated_at (source lines 69-72). -/
def MessageSendRecord.mark_as_sending (m : MessageSendRecord) (now : Nat) :
    MessageSendRecord :=
  { m with status := "sending", updated_at := now }

/-- mark_as_success: unconditionally sets status to success, stamps sent_at,
bumps updated_at and clears error_message (source lines 74-79). -/
def MessageSendRecord.mark_as_success (m : MessageSendRecord) (now : Nat) :
    MessageSendRecord :=
  { m with status := "success", sent_at := some now, updated_at := now,
           error_message := none }

/-- mark_as_failed: unconditionally sets status to failed and records the
error message (source lines 81-85). -/
def MessageSendRecord.mark_as_failed (m : MessageSendRecord) (err : String)
    (now : Nat) : MessageSendRecord :=
  { m with status := "failed", error_message := some err, updated_at := now }

/-- backend/app/models/batch_send_record.py BatchSendRecord: the aggregate
row for one dispatch request. Counts are Int, mirroring SQL integer columns
without truncation. -/
structure BatchSendRecord where
  id : Nat
  batch_id : String
  batch_name : String
  total_count : Int
  success_count : Int
  failed_count : Int
  pending_count : Int
  status : String
  version : Nat
deriving Repr, DecidableEq

/-- The batch count invariant from the spec: success + failed + pending
equals total. -/
def BatchSendRecord.counts_ok (b : BatchSendRecord) : Prop :=
  b.success_count + b.failed_count + b.pending_count = b.total_count

instance (b : BatchSendRecord) : Decidable b.counts_ok := by
  unfold BatchSendRecord.counts_ok; infer_instance

/-- Modelled from the spec: the count-increment operation applied to the
owning Batch as one Message resolves (spec 3: "mutated only by
count-increment operations as each Message resolves", guarded by the
optimistic version counter). The repository has no implementation of this
update yet (the worker message handler carries a TODO in its place), so the
operation is taken from the spec text: move one unit from pending to success
or failed and bump the version. -/
def BatchSendRecord.apply_message_resolution (b : BatchSendRecord)
    (succeeded : Bool) : BatchSendRecord :=
  { b with
    pending_count := b.pending_count - 1,
    success_count := b.success_count + (if succeeded then 1 else 0),
    failed_count := b.failed_count + (if succeeded then 0 else 1),
    version := b.version + 1 }

/-- The persisted store threaded through the service: batch rows, message
rows, and the autoincrement cursors. -/
structure DB where
  batches : List BatchSendRecord
  messages : List MessageSendRecord
  next_message_id : Nat
  next_batch_row_id : Nat
deriving Repr, DecidableEq

/-- Outcome of a CRUD create call: the SQLAlchemy layer either commits or
raises (ValueError / RuntimeError wrapped from IntegrityError /
SQLAlchemyError). -/
inductive CreateOutcome
  | ok
  | raiseErr (msg : String)
deriving Repr, DecidableEq

/-- Single-send queue payload (send_service.py lines 154-162). -/
structure SingleSendPayload where
  batch_id : String
  message_id : Nat
  channel : String
  content : String
  recipient : Recipient
  created_at : Nat
deriving Repr, DecidableEq

/-- One element of the batch payload recipient list: the recipient dict
merged with its message id (send_service.py lines 179-183). -/
structure BatchItem where
  rid : String
  rtype : String
  message_id : Nat
deriving Repr, DecidableEq

/-- Batch-send queue payload (send_service.py lines 185-192). -/
structure BatchSendPayload where
  batch_id : String
  channel : String
  content : String
  recipients : List BatchItem
  total_count : Nat
deriving Repr, DecidableEq

/-- A queue entry is a single-send or a batch-send payload. -/
inductive QueuePayload
  | single (p : SingleSendPayload)
  | batch (p : BatchSendPayload)
deriving Repr, DecidableEq

/-- Result dict of SendService._enqueue_messages. -/
structure EnqueueResult where
  success : Bool
  error : Option String
  queued_count : Nat
  task_ids : List String
deriving Repr, DecidableEq

/-- The small-batch loop of _enqueue_messages (lines 151-173): one
sqs_queue_manager.send_message call per (record, recipient) pair, collecting
the returned task ids and, as the externally visible effect, the entries
that actually landed on the send_queue. The oracle enq gives the Option
task id returned by the i-th transport call (the SQS manager catches all of
its exceptions and returns None, so Option is its full behavior). -/
def enqueueSingles (bid ch ct : String) (enq : Nat → Option String) :
    Nat → List (MessageSendRecord × Recipient) →
    List String × List (String × QueuePayload)
  | _, [] => ([], [])
  | i, (rec, rcp) :: rest =>
    let payload := QueuePayload.single
      { batch_id := bid, message_id := rec.id, channel := ch, content := ct,
        recipient := rcp, created_at := rec.created_at }
    let tail := enqueueSingles bid ch ct enq (i + 1) rest
    match enq i with
    | some tid => (tid :: tail.1, ("send_queue", payload) :: tail.2)
    | none => tail

/-- The batch-payload recipient list (lines 178-183): recipients enumerated
in order, each paired with the id of the message record at the same
index. -/
def buildBatchItems : List MessageSendRecord → List Recipient → List BatchItem
  | rec :: recs, rcp :: rcps =>
    { rid := rcp.rid, rtype := rcp.rtype, message_id := rec.id } ::
      buildBatchItems recs rcps
  | _, _ => []

/-- SendService._enqueue_messages (lines 136-227): if at most 5 recipients,
one transport call per recipient onto send_queue; otherwise a single
transport call onto batch_queue carrying the full recipient list. Afterwards
(lines 205-218) the result is failure exactly when no task id was
collected. Returns the result dict together with the entries that landed on
the queues. -/
def enqueue_messages (bid ch ct : String) (records : List MessageSendRecord)
    (recipients : List Recipient) (enq : Nat → Option String) :
    EnqueueResult × List (String × QueuePayload) :=
  let sent :=
    if recipients.length ≤ 5 then
      enqueueSingles bid ch ct enq 0 (records.zip recipients)
    else
      let items := buildBatchItems records recipients
      let payload := QueuePayload.batch
        { batch_id := bid, channel := ch, content := ct,
          recipients := items, total_count := items.length }
      match enq 0 with
      | some tid => ([tid], [("batch_queue", payload)])
      | none => ([], [])
  if sent.1.isEmpty then
    ({ success := false, error := some "No messages were successfully enqueued",
       queued_count := 0, task_ids := [] }, sent.2)
  else
    ({ success := true, error := none, queued_count := sent.1.length,
       task_ids := sent.1 }, sent.2)

/-- The response dict of SendService.send_message. success, status and
total_count are populated by every return path of the source; the remaining
keys are present only on some paths and are Option here. -/
structure SendResponse where
  success : Bool
  error : Option String
  status : String
  batch_id : Option String
  total_count : Nat
  message : Option String
  task_ids : Option (List String)
deriving Repr, DecidableEq

/-- SendService.supported_channels. -/
def supported_channels : List String := ["line", "sms", "email"]

/-- The message rows built by the per-recipient loop of send_message (lines
82-96): one pending record per recipient, ids assigned by the store
cursor. -/
def buildMessageRecords (bid ch ct : String) (now : Nat) :
    Nat → List Recipient → List MessageSendRecord
  | _, [] => []
  | firstId, r :: rs =>
    { id := firstId, batch_id := bid, channel := ch, content := ct,
      recipient_id := r.rid, recipient_type := r.rtype, status := "pending",
      error_message := none, sent_at := none, created_at := now,
      updated_at := now } :: buildMessageRecords bid ch ct now (firstId + 1) rs

/-- SendService.send_message (lines 25-134): validates channel and
recipients, creates the batch row and the per-recipient message rows, then
enqueues; the top-level except turns any raise from the create calls into
the failed response with total_count 0. Returns the response, the store,
and the queue entries produced. The oracles bc and mc give the outcomes of
the two CRUD create calls; enq the per-call transport outcomes. -/
def send_message (content channel : String) (recipients : List Recipient)
    (batch_name : Option String) (bid : String) (now : Nat)
    (bc mc : CreateOutcome) (enq : Nat → Option String) (db : DB) :
    SendResponse × DB × List (String × QueuePayload) :=
  if channel ∉ supported_channels then
    ({ success := false, error := some ("Unsupported channel: " ++ channel),
       status := "failed", batch_id := none, total_count := 0,
       message := none, task_ids := none }, db, [])
  else if recipients.isEmpty then
    ({ success := false, error := some "Recipient list must not be empty",
       status := "failed", batch_id := none, total_count := 0,
       message := none, task_ids := none }, db, [])
  else
    match bc with
    | CreateOutcome.raiseErr e =>
      ({ success := false, error := some ("Send failed: " ++ e),
         status := "failed", batch_id := none, total_count := 0,
         message := none, task_ids := none }, db, [])
    | CreateOutcome.ok =>
      let total := recipients.length
      let batchRec : BatchSendRecord :=
        { id := db.next_batch_row_id, batch_id := bid,
          batch_name := batch_name.getD (channel ++ "_batch_" ++ bid),
          total_count := (total : Int), success_count := 0, failed_count := 0,
          pending_count := (total : Int), status := "pending", version := 0 }
      let db1 : DB :=
        { db with batches := db.batches ++ [batchRec],
                  next_batch_row_id := db.next_batch_row_id + 1 }
      match mc with
      | CreateOutcome.raiseErr e =>
        ({ success := false, error := some ("Send failed: " ++ e),
           status := "failed", batch_id := none, total_count := 0,
           message := none, task_ids := none }, db1, [])
      | CreateOutcome.ok =>
        let records := buildMessageRecords bid channel content now
          db1.next_message_id recipients
        let db2 : DB :=
          { db1 with messages := db1.messages ++ records,
                     next_message_id := db1.next_message_id + records.length }
        let q := enqueue_messages bid channel content records recipients enq
        if q.1.success then
          ({ success := true, error := none, status := "queued",
             batch_id := some bid, total_count := total,
             message := some "send request queued", task_ids := some q.1.task_ids },
           db2, q.2)
        else
          ({ success := false,
             error := some ("Queue enqueue failed: " ++ (q.1.error.getD "")),
             status := "failed", batch_id := some bid, total_count := total,
             message := none, task_ids := none }, db2, q.2)

/-- shared/channels/base.py SendStatus. -/
inductive SendStatus
  | success
  | failed
  | pending
  | rate_limited
deriving Repr, DecidableEq

/-- shared/channels/base.py SendResult. -/
structure SendResult where
  status : SendStatus
  message_id : Option String
  error_message : Option String
  response_data : Option String
deriving Repr, DecidableEq

/-- shared/channels/base.py RateLimit dataclass. Times are Int seconds so
subtraction matches the source arithmetic exactly. -/
structure RateLimit where
  max_requests : Nat
  time_window : Int
  current_requests : Nat
  reset_time : Option Int
deriving Repr, DecidableEq

/-- RateLimit.is_exceeded: current_requests >= max_requests. -/
def RateLimit.is_exceeded (rl : RateLimit) : Bool :=
  rl.max_requests ≤ rl.current_requests

/-- worker/app/channels/line_bot.py LineBotChannel runtime state: the token,
the RateLimit record and the window start time. -/
structure LineBotChannel where
  channel_access_token : String
  rate_limit : RateLimit
  rate_limit_start_time : Int
deriving Repr, DecidableEq

/-- LineBotChannel.get_rate_limit (lines 147-160): on read, if the elapsed
time since the window start reaches time_window, zero the counter and
restart the window; returns the RateLimit and the updated channel state. -/
def LineBotChannel.get_rate_limit (c : LineBotChannel) (now : Int) :
    RateLimit × LineBotChannel :=
  if c.rate_limit.time_window ≤ now - c.rate_limit_start_time then
    let rl := { c.rate_limit with
                current_requests := 0,
                reset_time := some (now + c.rate_limit.time_window) }
    (rl, { c with rate_limit := rl, rate_limit_start_time := now })
  else
    (c.rate_limit, c)

/-- Python str.isalnum: true only on a non-empty all-alphanumeric string,
over the character-list view. -/
def pyIsAlnum (cs : List Char) : Bool :=
  !cs.isEmpty && cs.all Char.isAlphanum

/-- LineBotChannel.validate_recipient (lines 162-196): non-empty, starts
with U, and the remainder of the string passes isalnum. The character-list
view of the string is used so the checks compute by reduction. -/
def LineBotChannel.validate_recipient (recipient : String) : Bool :=
  !recipient.data.isEmpty &&
    decide (recipient.data.take 1 = ['U']) &&
    pyIsAlnum (recipient.data.drop 1)

/-- Outcome of the outbound Line push_message network call: a response, a
timeout, an ApiException, or some other exception. -/
inductive NetOutcome
  | ok (response : Option String)
  | timeout
  | apiError (msg : String)
  | otherExc (msg : String)
deriving Repr, DecidableEq

/-- Observable steps of one send_message call, carrying the counter value
visible at that step: the rate check, recipient validation, the outbound
network call (with the counter as it stands when the call is issued), and
the counter increment (with the new value). -/
inductive Ev
  | checkRate (current : Nat)
  | validate (ok : Bool)
  | netCall (currentAtCall : Nat)
  | increment (newCurrent : Nat)
deriving Repr, DecidableEq

/-- LineBotChannel._update_rate_limit (lines 255-258): increment the
counter. -/
def LineBotChannel.update_rate_limit (c : LineBotChannel) : LineBotChannel :=
  { c with rate_limit :=
    { c.rate_limit with
      current_requests := c.rate_limit.current_requests + 1 } }

/-- LineBotChannel.send_message (lines 65-145): rate check (which may reset
the window), recipient validation, the network call under a timeout, and
only after a successful call the counter increment. Returns the SendResult,
the new channel state and the event trace in program order. -/
def LineBotChannel.send_message (c : LineBotChannel) (_content recipient : String)
    (now : Int) (net : NetOutcome) : SendResult × LineBotChannel × List Ev :=
  let rc := c.get_rate_limit now
  let evs0 := [Ev.checkRate rc.1.current_requests]
  if rc.1.is_exceeded then
    ({ status := SendStatus.rate_limited, message_id := none,
       error_message := some "Rate limit exceeded", response_data := none },
     rc.2, evs0)
  else
    let vOk := LineBotChannel.validate_recipient recipient
    let evs1 := evs0 ++ [Ev.validate vOk]
    if !vOk then
      ({ status := SendStatus.failed, message_id := none,
         error_message := some "Invalid recipient format",
         response_data := none }, rc.2, evs1)
    else
      let evs2 := evs1 ++ [Ev.netCall rc.2.rate_limit.current_requests]
      match net with
      | NetOutcome.timeout =>
        ({ status := SendStatus.failed, message_id := none,
           error_message := some "Line Bot API call timed out",
           response_data := none }, rc.2, evs2)
      | NetOutcome.apiError m =>
        ({ status := SendStatus.failed, message_id := none,
           error_message := some ("Line Bot API error: " ++ m),
           response_data := none }, rc.2, evs2)
      | NetOutcome.otherExc m =>
        ({ status := SendStatus.failed, message_id := none,
           error_message := some ("Unexpected error: " ++ m),
           response_data := none }, rc.2, evs2)
      | NetOutcome.ok resp =>
        let c2 := rc.2.update_rate_limit
        ({ status := SendStatus.success, message_id := none,
           error_message := none, response_data := resp }, c2,
         evs2 ++ [Ev.increment c2.rate_limit.current_requests])

/-- k consecutive send_message calls with successful network outcomes, all
at the same instant (within one window), threading the channel state. -/
def sendRepeat (content recipient : String) (now : Int) :
    LineBotChannel → Nat → LineBotChannel
  | c, 0 => c
  | c, k + 1 =>
    (LineBotChannel.send_message (sendRepeat content recipient now c k)
      content recipient now (NetOutcome.ok none)).2.1

/-- Channel kwargs as a key/value association list (stringly, as in the
config dicts). -/
def KW := List (String × String)
deriving Repr, DecidableEq

/-- Insertion of one pair into a key-sorted list. -/
def insertPair (p : String × String) : KW → KW
  | [] => [p]
  | q :: qs => if p.1 ≤ q.1 then p :: q :: qs else q :: insertPair p qs

/-- python str(sorted(kwargs.items())): the kwargs pairs in sorted key
order (dict keys are unique, so key order determines the string). -/
def sortKW : KW → KW
  | [] => []
  | p :: ps => insertPair p (sortKW ps)

/-- A constructed channel instance: its type, the configuration content it
was built from, and an identity tag distinguishing separately constructed
objects. -/
structure ChannelInstance where
  ctype : String
  config : KW
  uid : Nat
deriving Repr, DecidableEq

/-- worker/app/channels/factory.py ChannelFactory state: registered channel
types, the instance cache keyed by the string built from channel type and
sorted kwargs, and the identity counter. -/
structure ChannelFactory where
  registered : List String
  instances : List ((String × KW) × ChannelInstance)
  next_uid : Nat
deriving Repr, DecidableEq

/-- Cache lookup by exact key. -/
def lookupInst (key : String × KW) :
    List ((String × KW) × ChannelInstance) → Option ChannelInstance
  | [] => none
  | e :: es => if e.1 = key then some e.2 else lookupInst key es

/-- The freshly initialized factory: _register_default_channels registers
only the line channel. -/
def ChannelFactory.init : ChannelFactory :=
  { registered := ["line"], instances := [], next_uid := 0 }

/-- The channel access token a LineBotChannel would be constructed with. -/
def tokenOf (kw : KW) : String :=
  ((kw.filter (fun p => p.1 = "channel_access_token")).headD ("", "")).2

/-- ChannelFactory.create_channel (lines 59-100): reject unregistered
types; compute the cache key from the channel type and the kwargs as
passed; return the cached instance on a hit; otherwise substitute the
default config only when kwargs is empty, construct the instance (the
LineBotChannel constructor raises when the token is empty, surfaced as a
configuration error), and cache it under the key. defaults maps a channel
type to its settings-derived config. -/
def ChannelFactory.create_channel (f : ChannelFactory) (ctype : String)
    (kwargs : KW) (defaults : String → KW) :
    Except String (ChannelInstance × ChannelFactory) :=
  if ctype ∉ f.registered then
    Except.error ("Unsupported channel type: " ++ ctype)
  else
    let key := (ctype, sortKW kwargs)
    match lookupInst key f.instances with
    | some inst => Except.ok (inst, f)
    | none =>
      let effKw := if kwargs.isEmpty then defaults ctype else kwargs
      if tokenOf effKw = "" then
        Except.error ("Failed to create channel " ++ ctype)
      else
        let inst : ChannelInstance :=
          { ctype := ctype, config := effKw, uid := f.next_uid }
        Except.ok (inst,
          { f with instances := f.instances ++ [(key, inst)],
                   next_uid := f.next_uid + 1 })

/-- ChannelFactory.get_instance_count. -/
def ChannelFactory.get_instance_count (f : ChannelFactory) : Nat :=
  f.instances.length

/-- Outcome of one MessageHandler.handle_message invocation as seen by the
worker loop: a boolean verdict, or an exception escaping the handler. -/
inductive HandlerOutcome
  | ok
  | fail
  | exc
deriving Repr, DecidableEq

/-- One message as returned by SQSClient.receive_messages: the broker
message id and the receipt handle used for deletion. -/
structure InMessage where
  message_id : String
  receipt_handle : String
deriving Repr, DecidableEq

/-- Outcome of one receive_messages long poll: a message list, or an
exception from the receive call. -/
inductive PollOutcome
  | msgs (l : List InMessage)
  | raiseE
deriving Repr, DecidableEq

/-- The per-message loop of WorkerService._process_queue (lines 121-149):
each message is handed to the handler inside its own try; on a true verdict
the entry is deleted, on false or on an exception it is left in the queue
and the loop moves on. Returns the receipt handles deleted. -/
def processMessages (handler : String → HandlerOutcome) :
    List InMessage → List String
  | [] => []
  | m :: rest =>
    match handler m.message_id with
    | HandlerOutcome.ok => m.receipt_handle :: processMessages handler rest
    | HandlerOutcome.fail => processMessages handler rest
    | HandlerOutcome.exc => processMessages handler rest

/-- One iteration of the _process_queue while body: a failed receive is
caught by the outer except (sleep then continue) and deletes nothing. -/
def processIteration (poll : PollOutcome)
    (handler : String → HandlerOutcome) : List String :=
  match poll with
  | PollOutcome.raiseE => []
  | PollOutcome.msgs l => processMessages handler l

/-- WorkerService._process_queue (lines 101-157): while the running flag
holds, poll and process; the flag is sampled once per iteration (iteration
index i), and fuel bounds the unrolling of the while loop. Returns all
receipt handles deleted across iterations. -/
def process_queue (running : Nat → Bool) (polls : Nat → PollOutcome)
    (handler : Nat → String → HandlerOutcome) :
    Nat → Nat → List String
  | 0, _ => []
  | fuel + 1, i =>
    if running i then
      processIteration (polls i) (handler i) ++
        process_queue running polls handler fuel (i + 1)
    else []

/-- One simulated per-recipient result row built by the batch-send loop of
the worker message handler (message_handler.py lines 174-188): recipient,
message id, and the simulated success flag drawn from the random oracle for
that position. -/
structure BatchSimResult where
  recipient_id : String
  message_id : Nat
  success : Bool
deriving Repr, DecidableEq

/-- The results list of MessageHandler._handle_batch_send: one simulated
outcome per recipient, in order (rand i is the draw for position i). -/
def batchSimResults (rand : Nat → Bool) : Nat → List BatchItem →
    List BatchSimResult
  | _, [] => []
  | i, r :: rs =>
    { recipient_id := r.rid, message_id := r.message_id, success := rand i } ::
      batchSimResults rand (i + 1) rs

/-- MessageHandler._handle_batch_send (lines 161-202): simulates one send
per embedded recipient, tallies success and failure counts into log output,
and returns True once the whole batch has been attempted. The store is
threaded to expose its persistence effect: the source performs no Message
or Batch update (the update sites are TODO comments), so the store passes
through untouched. -/
def handle_batch_send (p : BatchSendPayload) (rand : Nat → Bool) (db : DB) :
    Bool × DB :=
  let results := batchSimResults rand 0 p.recipients
  let successTally := (results.filter (fun r => r.success)).length
  let _failedTally := results.length - successTally
  (true, db)

/-- MessageHandler._send_via_line (lines 100-137): fail fast when the line
channel object is missing or unavailable, otherwise send and map the result
status to the boolean verdict. The store is threaded to expose that no
Message or Batch row is written on any path. -/
def send_via_line (channelInitialized available : Bool) (res : SendResult)
    (db : DB) : Bool × DB :=
  if !channelInitialized then (false, db)
  else if !available then (false, db)
  else (decide (res.status = SendStatus.success), db)

lemma enqueueSingles_all_some (bid ch ct : String) (enq : Nat → Option String)
    (hok : ∀ i, (enq i).isSome) (pairs : List (MessageSendRecord × Recipient)) :
    ∀ i : Nat,
    (enqueueSingles bid ch ct enq i pairs).2 =
      pairs.map (fun pr => ("send_queue", QueuePayload.single
        { batch_id := bid, message_id := pr.1.id, channel := ch,
          content := ct, recipient := pr.2, created_at := pr.1.created_at })) ∧
    (enqueueSingles bid ch ct enq i pairs).1.length = pairs.length := by
  induction pairs with
  | nil => intro i; simp [enqueueSingles]
  | cons hd tl ih =>
    intro i
    obtain ⟨tid, htid⟩ := Option.isSome_iff_exists.mp (hok i)
    obtain ⟨ih1, ih2⟩ := ih (i + 1)
    simp [enqueueSingles, htid, ih1, ih2]

lemma enqueueSingles_len_eq (bid ch ct : String) (enq : Nat → Option String)
    (pairs : List (MessageSendRecord × Recipient)) : ∀ i : Nat,
    (enqueueSingles bid ch ct enq i pairs).1.length =
      (enqueueSingles bid ch ct enq i pairs).2.length := by
  induction pairs with
  | nil => intro i; simp [enqueueSingles]
  | cons hd tl ih =>
    intro i
    cases h : enq i with
    | none => simpa [enqueueSingles, h] using ih (i + 1)
    | some tid => simpa [enqueueSingles, h] using ih (i + 1)

lemma buildBatchItems_length (records : List MessageSendRecord) :
    ∀ recipients : List Recipient, records.length = recipients.length →
    (buildBatchItems records recipients).length = recipients.length := by
  induction records with
  | nil => intro recipients h; cases recipients <;> simp_all [buildBatchItems]
  | cons r rs ih =>
    intro recipients h
    cases recipients with
    | nil => simp at h
    | cons p ps =>
      simp only [List.length_cons, Nat.add_right_cancel_iff] at h
      simp [buildBatchItems, ih ps h]

lemma buildBatchItems_ids (records : List MessageSendRecord) :
    ∀ recipients : List Recipient, records.length = recipients.length →
    (buildBatchItems records recipients).map (fun b => b.message_id) =
      records.map (fun r => r.id) := by
  induction records with
  | nil => intro recipients h; cases recipients <;> simp_all [buildBatchItems]
  | cons r rs ih =>
    intro recipients h
    cases recipients with
    | nil => simp at h
    | cons p ps =>
      simp only [List.length_cons, Nat.add_right_cancel_iff] at h
      simp [buildBatchItems, ih ps h]

lemma enqueue_messages_snd (bid ch ct : String)
    (records : List MessageSendRecord) (recipients : List Recipient)
    (enq : Nat → Option String) :
    (enqueue_messages bid ch ct records recipients enq).2 =
      (if recipients.length ≤ 5 then
        enqueueSingles bid ch ct enq 0 (records.zip recipients)
      else
        match enq 0 with
        | some tid => ([tid], [("batch_queue", QueuePayload.batch
            { batch_id := bid, channel := ch, content := ct,
              recipients := buildBatchItems records recipients,
              total_count := (buildBatchItems records recipients).length })])
        | none => ([], [])).2 := by
  unfold enqueue_messages
  split
  · cases hc : (enqueueSingles bid ch ct enq 0 (records.zip recipients)).1.isEmpty <;>
      simp [hc]
  · cases h0 : enq 0 <;> simp [h0]

/-- C1: with a transport that accepts every call, the enqueue step of
_enqueue_messages puts one single-send entry per recipient onto send_queue
when the recipient count is at most 5, and exactly one batch-send entry on
batch_queue carrying every recipient with its message id and the total
count when the count exceeds 5. -/
theorem enqueue_threshold (bid ch ct : String)
    (records : List MessageSendRecord) (recipients : List Recipient)
    (enq : Nat → Option String) (hlen : records.length = recipients.length)
    (hne : recipients ≠ []) (hok : ∀ i, (enq i).isSome) :
    (recipients.length ≤ 5 →
      (enqueue_messages bid ch ct records recipients enq).2 =
        (records.zip recipients).map (fun pr => ("send_queue",
          QueuePayload.single
            { batch_id := bid, message_id := pr.1.id, channel := ch,
              content := ct, recipient := pr.2,
              created_at := pr.1.created_at })) ∧
      (enqueue_messages bid ch ct records recipients enq).2.length =
        recipients.length) ∧
    (5 < recipients.length →
      (enqueue_messages bid ch ct records recipients enq).2 =
        [("batch_queue", QueuePayload.batch
          { batch_id := bid, channel := ch, content := ct,
            recipients := buildBatchItems records recipients,
            total_count := recipients.length })] ∧
      (buildBatchItems records recipients).length = recipients.length ∧
      (buildBatchItems records recipients).map (fun b => b.message_id) =
        records.map (fun r => r.id)) := by
  have hitems := buildBatchItems_length records recipients hlen
  constructor
  · intro h5
    have hz : (records.zip recipients).length = recipients.length := by
      rw [List.length_zip, hlen, min_self]
    have hs := enqueueSingles_all_some bid ch ct enq hok
      (records.zip recipients) 0
    rw [enqueue_messages_snd, if_pos h5]
    refine ⟨hs.1, ?_⟩
    rw [hs.1, List.length_map, hz]
  · intro h6
    obtain ⟨tid, htid⟩ := Option.isSome_iff_exists.mp (hok 0)
    rw [enqueue_messages_snd, if_neg (by omega), htid]
    exact ⟨by rw [hitems], hitems, buildBatchItems_ids records recipients hlen⟩

/-- A concrete recipient for witnesses. -/
def wR : Recipient := { rid := "U1", rtype := "user" }

/-- A concrete message record with the given id for witnesses. -/
def wRec (k : Nat) : MessageSendRecord :=
  { id := k, batch_id := "b", channel := "line", content := "hi",
    recipient_id := "U1", recipient_type := "user", status := "pending",
    error_message := none, sent_at := none, created_at := 0, updated_at := 0 }

/-- A transport oracle accepting every call. -/
def wEnq : Nat → Option String := fun i => some (toString i)

def wRecs5 : List MessageSendRecord :=
  [wRec 1, wRec 2, wRec 3, wRec 4, wRec 5]

def wRcps5 : List Recipient := List.replicate 5 wR

def wRecs6 : List MessageSendRecord :=
  [wRec 1, wRec 2, wRec 3, wRec 4, wRec 5, wRec 6]

def wRcps6 : List Recipient := List.replicate 6 wR

/-- Witness for C1: five recipients yield five single-send entries; six
recipients yield exactly the one batch-send entry with total count six. -/
theorem enqueue_threshold_witness :
    ((enqueue_messages "b" "line" "hi" wRecs5 wRcps5 wEnq).2.length = 5) ∧
    ((enqueue_messages "b" "line" "hi" wRecs6 wRcps6 wEnq).2 =
      [("batch_queue", QueuePayload.batch
        { batch_id := "b", channel := "line", content := "hi",
          recipients := buildBatchItems wRecs6 wRcps6,
          total_count := 6 })]) :=
  ⟨((enqueue_threshold "b" "line" "hi" wRecs5 wRcps5 wEnq rfl (by decide)
      (fun _ => rfl)).1 (by decide)).2,
   ((enqueue_threshold "b" "line" "hi" wRecs6 wRcps6 wEnq rfl (by decide)
      (fun _ => rfl)).2 (by decide)).1⟩

lemma buildMessageRecords_length (bid ch ct : String) (now : Nat) :
    ∀ (recipients : List Recipient) (firstId : Nat),
    (buildMessageRecords bid ch ct now firstId recipients).length =
      recipients.length := by
  intro recipients
  induction recipients with
  | nil => intro firstId; simp [buildMessageRecords]
  | cons r rs ih => intro firstId; simp [buildMessageRecords, ih (firstId + 1)]

lemma enqueue_messages_success_iff (bid ch ct : String)
    (records : List MessageSendRecord) (recipients : List Recipient)
    (enq : Nat → Option String) :
    ((enqueue_messages bid ch ct records recipients enq).1.success = true) ↔
      (enqueue_messages bid ch ct records recipients enq).2 ≠ [] := by
  unfold enqueue_messages
  split
  · have hlen := enqueueSingles_len_eq bid ch ct enq (records.zip recipients) 0
    cases hl : (enqueueSingles bid ch ct enq 0 (records.zip recipients)).1 with
    | nil =>
      have h2 : (enqueueSingles bid ch ct enq 0 (records.zip recipients)).2 = [] := by
        rw [hl] at hlen
        exact (List.length_eq_zero.mp hlen.symm)
      simp [hl, h2]
    | cons a l =>
      have h2 : (enqueueSingles bid ch ct enq 0 (records.zip recipients)).2 ≠ [] := by
        intro h
        rw [hl, h] at hlen
        simp at hlen
      simp [hl, h2]
  · cases h0 : enq 0 with
    | none => simp [h0]
    | some tid => simp [h0]

/-- C2: with record creation succeeding, send_message reports overall
success exactly when at least one queue entry landed; with zero entries the
response is failed but still carries the batch id while the created batch
row and all message rows are retained; with at least one entry the response
is the queued success. -/
theorem send_reports_success_iff (content channel : String)
    (recipients : List Recipient) (bname : Option String) (bid : String)
    (now : Nat) (enq : Nat → Option String) (db : DB)
    (hch : channel ∈ supported_channels) (hne : recipients ≠ []) :
    ((send_message content channel recipients bname bid now CreateOutcome.ok
        CreateOutcome.ok enq db).1.success = true ↔
      (send_message content channel recipients bname bid now CreateOutcome.ok
        CreateOutcome.ok enq db).2.2 ≠ []) ∧
    ((send_message content channel recipients bname bid now CreateOutcome.ok
        CreateOutcome.ok enq db).2.2 = [] →
      (send_message content channel recipients bname bid now CreateOutcome.ok
          CreateOutcome.ok enq db).1.status = "failed" ∧
      (send_message content channel recipients bname bid now CreateOutcome.ok
          CreateOutcome.ok enq db).1.batch_id = some bid ∧
      (∃ b, (send_message content channel recipients bname bid now
          CreateOutcome.ok CreateOutcome.ok enq db).2.1.batches =
            db.batches ++ [b] ∧ b.batch_id = bid) ∧
      (send_message content channel recipients bname bid now CreateOutcome.ok
          CreateOutcome.ok enq db).2.1.messages.length =
        db.messages.length + recipients.length) ∧
    ((send_message content channel recipients bname bid now CreateOutcome.ok
        CreateOutcome.ok enq db).2.2 ≠ [] →
      (send_message content channel recipients bname bid now CreateOutcome.ok
          CreateOutcome.ok enq db).1.success = true ∧
      (send_message content channel recipients bname bid now CreateOutcome.ok
          CreateOutcome.ok enq db).1.status = "queued") := by
  have hch' : ¬ channel ∉ supported_channels := not_not_intro hch
  have hne' : ¬ (recipients.isEmpty = true) := by
    cases recipients with
    | nil => exact absurd rfl hne
    | cons a l => simp
  have hiff := enqueue_messages_success_iff bid channel content
    (buildMessageRecords bid channel content now db.next_message_id recipients)
    recipients enq
  have hml := buildMessageRecords_length bid channel content now recipients
    db.next_message_id
  cases hqs : (enqueue_messages bid channel content
      (buildMessageRecords bid channel content now db.next_message_id
        recipients) recipients enq).1.success with
  | false =>
    have hents : (enqueue_messages bid channel content
        (buildMessageRecords bid channel content now db.next_message_id
          recipients) recipients enq).2 = [] := by
      by_contra h
      exact absurd (hiff.mpr h) (by simp [hqs])
    refine ⟨?_, ?_, ?_⟩
    · simp [send_message, hch', hne', hqs, hents]
    · intro _
      refine ⟨?_, ?_, ?_, ?_⟩
      · simp [send_message, hch', hne', hqs, hents]
      · simp [send_message, hch', hne', hqs, hents]
      · exact ⟨{ id := db.next_batch_row_id, batch_id := bid,
                 batch_name := bname.getD (channel ++ "_batch_" ++ bid),
                 total_count := (recipients.length : Int), success_count := 0,
                 failed_count := 0,
                 pending_count := (recipients.length : Int),
                 status := "pending", version := 0 },
               by simp [send_message, hch', hne', hqs, hents], rfl⟩
      · simp [send_message, hch', hne', hqs, hents, hml]
    · intro h
      exact absurd (by simp [send_message, hch', hne', hqs, hents]) h
  | true =>
    have hents : (enqueue_messages bid channel content
        (buildMessageRecords bid channel content now db.next_message_id
          recipients) recipients enq).2 ≠ [] := hiff.mp hqs
    refine ⟨?_, ?_, ?_⟩
    · simp [send_message, hch', hne', hqs, hents]
    · intro h
      exact absurd (by simpa [send_message, hch', hne', hqs] using h) hents
    · intro _
      constructor <;> simp [send_message, hch', hne', hqs]

def dbEmpty : DB :=
  { batches := [], messages := [], next_message_id := 1, next_batch_row_id := 1 }

def wRcps2 : List Recipient := List.replicate 2 wR

/-- A transport oracle rejecting every call. -/
def wEnqNone : Nat → Option String := fun _ => none

/-- A transport oracle accepting only the first call. -/
def wEnqFirst : Nat → Option String := fun i => if i = 0 then some "t0" else none

/-- Witness for C2: with every transport call rejected the response is
failed yet carries the batch id; with only the first of two calls accepted
the response is still the queued success. -/
theorem send_reports_success_iff_witness :
    ((send_message "hi" "line" wRcps2 none "b" 0 CreateOutcome.ok
        CreateOutcome.ok wEnqNone dbEmpty).1.status = "failed" ∧
     (send_message "hi" "line" wRcps2 none "b" 0 CreateOutcome.ok
        CreateOutcome.ok wEnqNone dbEmpty).1.batch_id = some "b") ∧
    ((send_message "hi" "line" wRcps2 none "b" 0 CreateOutcome.ok
        CreateOutcome.ok wEnqFirst dbEmpty).1.success = true ∧
     (send_message "hi" "line" wRcps2 none "b" 0 CreateOutcome.ok
        CreateOutcome.ok wEnqFirst dbEmpty).1.status = "queued") := by
  constructor
  · have h := (send_reports_success_iff "hi" "line" wRcps2 none "b" 0 wEnqNone
      dbEmpty (by decide) (by decide)).2.1 (by decide)
    exact ⟨h.1, h.2.1⟩
  · exact (send_reports_success_iff "hi" "line" wRcps2 none "b" 0 wEnqFirst
      dbEmpty (by decide) (by decide)).2.2 (by decide)

/-- C4: send_message creates the batch with total equal to the recipient
count, pending equal to total and zero success and failed counts, so the
count invariant holds at creation; and the (spec-modelled) per-message
count-increment operation preserves the invariant at every resolution. -/
theorem batch_counts_invariant (content channel : String)
    (recipients : List Recipient) (bname : Option String) (bid : String)
    (now : Nat) (enq : Nat → Option String) (db : DB)
    (hch : channel ∈ supported_channels) (hne : recipients ≠ []) :
    (∃ b, (send_message content channel recipients bname bid now
        CreateOutcome.ok CreateOutcome.ok enq db).2.1.batches =
          db.batches ++ [b] ∧
      b.total_count = (recipients.length : Int) ∧
      b.pending_count = (recipients.length : Int) ∧
      b.success_count = 0 ∧ b.failed_count = 0 ∧ b.counts_ok) ∧
    (∀ (b : BatchSendRecord) (succeeded : Bool), b.counts_ok →
      (b.apply_message_resolution succeeded).counts_ok) := by
  have hch' : ¬ channel ∉ supported_channels := not_not_intro hch
  have hne' : ¬ (recipients.isEmpty = true) := by
    cases recipients with
    | nil => exact absurd rfl hne
    | cons a l => simp
  constructor
  · refine ⟨{ id := db.next_batch_row_id, batch_id := bid,
              batch_name := bname.getD (channel ++ "_batch_" ++ bid),
              total_count := (recipients.length : Int), success_count := 0,
              failed_count := 0,
              pending_count := (recipients.length : Int),
              status := "pending", version := 0 }, ?_, rfl, rfl, rfl, rfl, ?_⟩
    · cases hqs : (enqueue_messages bid channel content
          (buildMessageRecords bid channel content now db.next_message_id
            recipients) recipients enq).1.success <;>
        simp [send_message, hch', hne', hqs]
    · simp [BatchSendRecord.counts_ok]
  · intro b s hb
    unfold BatchSendRecord.counts_ok at hb
    unfold BatchSendRecord.counts_ok BatchSendRecord.apply_message_resolution
    cases s <;> simp <;> omega

/-- Witness for C4: a concrete two-recipient request creates the batch with
total 2, pending 2 and zero success and failed counts. -/
theorem batch_counts_invariant_witness :
    ∃ b, (send_message "hi" "line" wRcps2 none "b" 0 CreateOutcome.ok
        CreateOutcome.ok wEnq dbEmpty).2.1.batches = dbEmpty.batches ++ [b] ∧
      b.total_count = (2 : Int) ∧ b.pending_count = (2 : Int) ∧
      b.success_count = 0 ∧ b.failed_count = 0 ∧ b.counts_ok :=
  (batch_counts_invariant "hi" "line" wRcps2 none "b" 0 wEnq dbEmpty
    (by decide) (by decide)).1

/-- C10: send_message is total over every oracle outcome: the response
always pairs success with the queued status or failure with the failed
status (success, status and total_count are populated on every path), and
any raise from batch-record or message-record creation yields the failed
response. -/
theorem send_total_and_exception_safe (content channel : String)
    (recipients : List Recipient) (bname : Option String) (bid : String)
    (now : Nat) (bc mc : CreateOutcome) (enq : Nat → Option String) (db : DB) :
    (((send_message content channel recipients bname bid now bc mc enq
        db).1.success = true ∧
      (send_message content channel recipients bname bid now bc mc enq
        db).1.status = "queued") ∨
     ((send_message content channel recipients bname bid now bc mc enq
        db).1.success = false ∧
      (send_message content channel recipients bname bid now bc mc enq
        db).1.status = "failed")) ∧
    (bc ≠ CreateOutcome.ok ∨ mc ≠ CreateOutcome.ok →
      (send_message content channel recipients bname bid now bc mc enq
        db).1.success = false ∧
      (send_message content channel recipients bname bid now bc mc enq
        db).1.status = "failed") := by
  by_cases hch : channel ∉ supported_channels
  · exact ⟨Or.inr (by constructor <;> simp [send_message, hch]),
      fun _ => by constructor <;> simp [send_message, hch]⟩
  · by_cases hre : recipients.isEmpty = true
    · exact ⟨Or.inr (by constructor <;> simp [send_message, hch, hre]),
        fun _ => by constructor <;> simp [send_message, hch, hre]⟩
    · cases bc with
      | raiseErr e =>
        exact ⟨Or.inr (by constructor <;> simp [send_message, hch, hre]),
          fun _ => by constructor <;> simp [send_message, hch, hre]⟩
      | ok =>
        cases mc with
        | raiseErr e =>
          exact ⟨Or.inr (by constructor <;> simp [send_message, hch, hre]),
            fun _ => by constructor <;> simp [send_message, hch, hre]⟩
        | ok =>
          cases hqs : (enqueue_messages bid channel content
              (buildMessageRecords bid channel content now db.next_message_id
                recipients) recipients enq).1.success with
          | true =>
            refine ⟨Or.inl (by constructor <;>
              simp [send_message, hch, hre, hqs]), ?_⟩
            rintro (h | h) <;> exact absurd rfl h
          | false =>
            exact ⟨Or.inr (by constructor <;>
                simp [send_message, hch, hre, hqs]),
              fun _ => by constructor <;> simp [send_message, hch, hre, hqs]⟩

/-- Witness for C10: a raising batch-record creation yields the failed
response with success false. -/
theorem send_total_and_exception_safe_witness :
    (send_message "hi" "line" wRcps2 none "b" 0
      (CreateOutcome.raiseErr "integrity error") CreateOutcome.ok wEnq
      dbEmpty).1.success = false ∧
    (send_message "hi" "line" wRcps2 none "b" 0
      (CreateOutcome.raiseErr "integrity error") CreateOutcome.ok wEnq
      dbEmpty).1.status = "failed" :=
  (send_total_and_exception_safe "hi" "line" wRcps2 none "b" 0
    (CreateOutcome.raiseErr "integrity error") CreateOutcome.ok wEnq
    dbEmpty).2 (Or.inl (by decide))

lemma send_ok_step (c : LineBotChannel) (ct r : String) (now : Int)
    (resp : Option String)
    (hw : now - c.rate_limit_start_time < c.rate_limit.time_window)
    (hcur : c.rate_limit.current_requests < c.rate_limit.max_requests)
    (hv : LineBotChannel.validate_recipient r = true) :
    c.send_message ct r now (NetOutcome.ok resp) =
      ({ status := SendStatus.success, message_id := none,
         error_message := none, response_data := resp },
       c.update_rate_limit,
       [Ev.checkRate c.rate_limit.current_requests, Ev.validate true,
        Ev.netCall c.rate_limit.current_requests,
        Ev.increment (c.rate_limit.current_requests + 1)]) := by
  have hnr : ¬ (c.rate_limit.time_window ≤ now - c.rate_limit_start_time) :=
    not_le.mpr hw
  have hexc : c.rate_limit.is_exceeded = false := by
    simp only [RateLimit.is_exceeded, decide_eq_false_iff_not]
    omega
  simp [LineBotChannel.send_message, LineBotChannel.get_rate_limit, hnr, hexc,
    hv, LineBotChannel.update_rate_limit]

/-- The channel with its window counter advanced by k: the state reached by
k successful sends inside one window. -/
def bump (c : LineBotChannel) (k : Nat) : LineBotChannel :=
  { c with rate_limit :=
    { c.rate_limit with
      current_requests := c.rate_limit.current_requests + k } }

@[simp] lemma bump_start (c : LineBotChannel) (k : Nat) :
    (bump c k).rate_limit_start_time = c.rate_limit_start_time := rfl

@[simp] lemma bump_window (c : LineBotChannel) (k : Nat) :
    (bump c k).rate_limit.time_window = c.rate_limit.time_window := rfl

@[simp] lemma bump_cur (c : LineBotChannel) (k : Nat) :
    (bump c k).rate_limit.current_requests =
      c.rate_limit.current_requests + k := rfl

@[simp] lemma bump_max (c : LineBotChannel) (k : Nat) :
    (bump c k).rate_limit.max_requests = c.rate_limit.max_requests := rfl

lemma sendRepeat_current (ct r : String) (now : Int) (c : LineBotChannel)
    (hv : LineBotChannel.validate_recipient r = true)
    (hw : now - c.rate_limit_start_time < c.rate_limit.time_window) :
    ∀ k, c.rate_limit.current_requests + k ≤ c.rate_limit.max_requests →
      sendRepeat ct r now c k = bump c k := by
  intro k
  induction k with
  | zero => intro _; rfl
  | succ k ih =>
    intro h
    have hw2 : now - (bump c k).rate_limit_start_time <
        (bump c k).rate_limit.time_window := by simpa using hw
    have hcur2 : (bump c k).rate_limit.current_requests <
        (bump c k).rate_limit.max_requests := by
      simp only [bump_cur, bump_max]
      omega
    simp only [sendRepeat]
    rw [ih (by omega), send_ok_step (bump c k) ct r now none hw2 hcur2 hv]
    show (bump c k).update_rate_limit = bump c (k + 1)
    simp [bump, LineBotChannel.update_rate_limit, Nat.add_assoc]

/-- C3: from a fresh window counter, max_requests successful sends within
the window all return success and drive the counter to max_requests; the
next call then returns rate_limited with a trace containing no network
call; and any rate-limit read whose elapsed time has reached the window
resets the counter to zero and restarts the window. -/
theorem rate_limit_law (c : LineBotChannel) (content recipient : String)
    (now : Int) (h0 : c.rate_limit.current_requests = 0)
    (hv : LineBotChannel.validate_recipient recipient = true)
    (hw : now - c.rate_limit_start_time < c.rate_limit.time_window) :
    (∀ k, k < c.rate_limit.max_requests →
      ((sendRepeat content recipient now c k).send_message content recipient
        now (NetOutcome.ok none)).1.status = SendStatus.success) ∧
    (sendRepeat content recipient now c
        c.rate_limit.max_requests).rate_limit.current_requests =
      c.rate_limit.max_requests ∧
    ((sendRepeat content recipient now c
        c.rate_limit.max_requests).send_message content recipient now
        (NetOutcome.ok none)).1.status = SendStatus.rate_limited ∧
    ((sendRepeat content recipient now c
        c.rate_limit.max_requests).send_message content recipient now
        (NetOutcome.ok none)).2.2 =
      [Ev.checkRate c.rate_limit.max_requests] ∧
    (∀ (c2 : LineBotChannel) (t : Int),
      c2.rate_limit.time_window ≤ t - c2.rate_limit_start_time →
      (c2.get_rate_limit t).1.current_requests = 0 ∧
      (c2.get_rate_limit t).2.rate_limit.current_requests = 0 ∧
      (c2.get_rate_limit t).2.rate_limit_start_time = t) := by
  have hmax := sendRepeat_current content recipient now c hv hw
    c.rate_limit.max_requests (by omega)
  have hnr : ¬ (c.rate_limit.time_window ≤ now - c.rate_limit_start_time) :=
    not_le.mpr hw
  refine ⟨?_, ?_, ?_, ?_, ?_⟩
  · intro k hk
    have hw2 : now - (bump c k).rate_limit_start_time <
        (bump c k).rate_limit.time_window := by simpa using hw
    have hcur2 : (bump c k).rate_limit.current_requests <
        (bump c k).rate_limit.max_requests := by
      simp only [bump_cur, bump_max]
      omega
    rw [sendRepeat_current content recipient now c hv hw k (by omega),
      send_ok_step (bump c k) content recipient now none hw2 hcur2 hv]
  · rw [hmax]
    simp [h0]
  · rw [hmax]
    simp [LineBotChannel.send_message, LineBotChannel.get_rate_limit, hnr,
      RateLimit.is_exceeded, h0]
  · rw [hmax]
    simp [LineBotChannel.send_message, LineBotChannel.get_rate_limit, hnr,
      RateLimit.is_exceeded, h0]
  · intro c2 t ht
    refine ⟨?_, ?_, ?_⟩ <;> simp [LineBotChannel.get_rate_limit, ht]

/-- A concrete Line channel with max_requests 2 and a 60 second window. -/
def wChan : LineBotChannel :=
  { channel_access_token := "tok",
    rate_limit := { max_requests := 2, time_window := 60,
                    current_requests := 0, reset_time := none },
    rate_limit_start_time := 0 }

/-- Witness for C3: after the two allowed sends the third call at the same
instant is rate limited without a network call, and a read 100 seconds in
resets the window. -/
theorem rate_limit_law_witness :
    (((sendRepeat "hi" "Uabc" 10 wChan 2).send_message "hi" "Uabc" 10
        (NetOutcome.ok none)).1.status = SendStatus.rate_limited ∧
     ((sendRepeat "hi" "Uabc" 10 wChan 2).send_message "hi" "Uabc" 10
        (NetOutcome.ok none)).2.2 = [Ev.checkRate 2]) ∧
    ((wChan.get_rate_limit 100).1.current_requests = 0 ∧
     (wChan.get_rate_limit 100).2.rate_limit.current_requests = 0 ∧
     (wChan.get_rate_limit 100).2.rate_limit_start_time = 100) := by
  have h := rate_limit_law wChan "hi" "Uabc" 10 rfl (by decide) (by decide)
  exact ⟨⟨h.2.2.1, h.2.2.2.1⟩, h.2.2.2.2 wChan 100 (by decide)⟩

/-- Counterexample for C8: a successful concrete send in which the network
call is issued while the counter still holds its pre-send value 0 and the
increment to 1 happens only afterwards, refuting the claimed
post-validation, pre-network-call increment. -/
theorem rate_increment_order_counterexample :
    (wChan.send_message "hi" "Uabc" 10 (NetOutcome.ok none)).1.status =
      SendStatus.success ∧
    (wChan.send_message "hi" "Uabc" 10 (NetOutcome.ok none)).2.2 =
      [Ev.checkRate 0, Ev.validate true, Ev.netCall 0, Ev.increment 1] := by
  constructor <;> decide

/-- C8 amended: on a successful send the counter is incremented exactly
once, after the network call returns (the call sees the pre-send counter
value); timed-out or failed network calls do not increment it. -/
theorem rate_increment_after_network (c : LineBotChannel) (ct r : String)
    (now : Int) (net : NetOutcome)
    (hw : now - c.rate_limit_start_time < c.rate_limit.time_window)
    (hcur : c.rate_limit.current_requests < c.rate_limit.max_requests)
    (hv : LineBotChannel.validate_recipient r = true) :
    (∀ resp, net = NetOutcome.ok resp →
      (c.send_message ct r now net).2.1.rate_limit.current_requests =
        c.rate_limit.current_requests + 1 ∧
      (c.send_message ct r now net).2.2 =
        [Ev.checkRate c.rate_limit.current_requests, Ev.validate true,
         Ev.netCall c.rate_limit.current_requests,
         Ev.increment (c.rate_limit.current_requests + 1)]) ∧
    (net = NetOutcome.timeout ∨ (∃ m, net = NetOutcome.apiError m) ∨
        (∃ m, net = NetOutcome.otherExc m) →
      (c.send_message ct r now net).2.1.rate_limit.current_requests =
        c.rate_limit.current_requests ∧
      (c.send_message ct r now net).2.2 =
        [Ev.checkRate c.rate_limit.current_requests, Ev.validate true,
         Ev.netCall c.rate_limit.current_requests]) := by
  have hnr : ¬ (c.rate_limit.time_window ≤ now - c.rate_limit_start_time) :=
    not_le.mpr hw
  have hexc : c.rate_limit.is_exceeded = false := by
    simp only [RateLimit.is_exceeded, decide_eq_false_iff_not]
    omega
  constructor
  · intro resp hresp
    subst hresp
    rw [send_ok_step _ ct r now resp hw hcur hv]
    exact ⟨rfl, rfl⟩
  · rintro (rfl | ⟨m, rfl⟩ | ⟨m, rfl⟩) <;>
      constructor <;>
        simp [LineBotChannel.send_message, LineBotChannel.get_rate_limit, hnr,
          hexc, hv]

/-- Witness for C8 amended: on the concrete channel a successful send moves
the counter from 0 to 1 with the network call seeing 0; a timed-out send
leaves it at 0 with no increment event. -/
theorem rate_increment_after_network_witness :
    ((wChan.send_message "hi" "Uabc" 10
        (NetOutcome.ok none)).2.1.rate_limit.current_requests = 1 ∧
     (wChan.send_message "hi" "Uabc" 10 (NetOutcome.ok none)).2.2 =
       [Ev.checkRate 0, Ev.validate true, Ev.netCall 0, Ev.increment 1]) ∧
    ((wChan.send_message "hi" "Uabc" 10
        NetOutcome.timeout).2.1.rate_limit.current_requests = 0 ∧
     (wChan.send_message "hi" "Uabc" 10 NetOutcome.timeout).2.2 =
       [Ev.checkRate 0, Ev.validate true, Ev.netCall 0]) :=
  ⟨(rate_increment_after_network wChan "hi" "Uabc" 10 (NetOutcome.ok none)
      (by decide) (by decide) (by decide)).1 none rfl,
   (rate_increment_after_network wChan "hi" "Uabc" 10 NetOutcome.timeout
      (by decide) (by decide) (by decide)).2 (Or.inl rfl)⟩

/-- A message record already resolved to success. -/
def wMsgSuccess : MessageSendRecord := { wRec 1 with status := "success" }

/-- Counterexample for C5: mark_as_sending applied to a record whose status
is success produces the status sending, a transition out of the success
state, so the mark operations do not make success terminal. -/
theorem mark_terminality_counterexample :
    wMsgSuccess.status = "success" ∧
    (wMsgSuccess.mark_as_sending 5).status = "sending" ∧
    (wMsgSuccess.mark_as_sending 5).status ≠ "success" := by
  refine ⟨rfl, rfl, by decide⟩

/-- C5 amended: the mark operations are unconditional setters from any
starting status: mark_as_sending yields sending, mark_as_success yields
success stamping sent_at and clearing error_message, mark_as_failed yields
failed recording the error; each lands in the sending, success or failed
state and the content and recipient fields are untouched, but no operation
guards against leaving success or failed (redelivery re-marks the same row
as sending). -/
theorem mark_operations_set_status (m : MessageSendRecord) (err : String)
    (now : Nat) :
    (m.mark_as_sending now).status = "sending" ∧
    (m.mark_as_success now).status = "success" ∧
    (m.mark_as_success now).error_message = none ∧
    (m.mark_as_success now).sent_at = some now ∧
    (m.mark_as_failed err now).status = "failed" ∧
    (m.mark_as_failed err now).error_message = some err ∧
    (m.mark_as_sending now).content = m.content ∧
    (m.mark_as_sending now).recipient_id = m.recipient_id ∧
    (m.mark_as_sending now).batch_id = m.batch_id :=
  ⟨rfl, rfl, rfl, rfl, rfl, rfl, rfl, rfl, rfl⟩

/-- C6: the worker message handler performs no persistence update at all:
the batch-send handler returns true with the store untouched whatever the
per-recipient outcomes, and the single-send path likewise never writes to
the store, so message statuses and batch counts do not reflect the
attempted sends (the update sites are TODO comments in the source). -/
theorem handler_no_persistence (p : BatchSendPayload) (rand : Nat → Bool)
    (chInit avail : Bool) (res : SendResult) (db : DB) :
    handle_batch_send p rand db = (true, db) ∧
    (send_via_line chInit avail res db).2 = db := by
  constructor
  · rfl
  · cases chInit <;> cases avail <;> simp [send_via_line]

lemma processMessages_filter (handler : String → HandlerOutcome) :
    ∀ msgs : List InMessage,
    processMessages handler msgs =
      (msgs.filter (fun m =>
        decide (handler m.message_id = HandlerOutcome.ok))).map
        (fun m => m.receipt_handle) := by
  intro msgs
  induction msgs with
  | nil => rfl
  | cons m rest ih =>
    cases h : handler m.message_id <;> simp [processMessages, h, ih]

lemma process_queue_upto (running : Nat → Bool) (polls : Nat → PollOutcome)
    (handler : Nat → String → HandlerOutcome) :
    ∀ (k start fuel : Nat), k < fuel →
    (∀ i, i < k → running (start + i) = true) →
    running (start + k) = false →
    process_queue running polls handler fuel start =
      ((List.range k).map
        (fun i => processIteration (polls (start + i))
          (handler (start + i)))).join := by
  intro k
  induction k with
  | zero =>
    intro start fuel hf h hstop
    cases fuel with
    | zero => omega
    | succ f =>
      have hstop0 : running start = false := by simpa using hstop
      simp [process_queue, hstop0]
  | succ k ih =>
    intro start fuel hf h hstop
    cases fuel with
    | zero => omega
    | succ f =>
      have h0 : running start = true := by
        have := h 0 (by omega)
        simpa using this
      have h1 : ∀ i, i < k → running (start + 1 + i) = true := by
        intro i hi
        have := h (i + 1) (by omega)
        rwa [show start + (i + 1) = start + 1 + i by omega] at this
      have h2 : running (start + 1 + k) = false := by
        rwa [show start + (k + 1) = start + 1 + k by omega] at hstop
      have hrec := ih (start + 1) f (by omega) h1 h2
      have hfn : (fun i => processIteration (polls (start + 1 + i))
          (handler (start + 1 + i))) =
          (fun i => processIteration (polls (start + (i + 1)))
            (handler (start + (i + 1)))) := by
        funext i
        rw [show start + 1 + i = start + (i + 1) by omega]
      rw [List.range_succ_eq_map]
      simp only [process_queue, h0, if_pos, List.map_cons, List.map_map,
        List.join]
      rw [hrec, hfn]
      rfl

/-- C7: the consumer loop deletes exactly the entries whose handler verdict
is true (handler failures and exceptions leave the entry undeleted), a
failed receive or a failed message never stops the loop, and the loop runs
through iteration after iteration until the first instant the running flag
is false. -/
theorem worker_ack_iff_and_stop (running : Nat → Bool)
    (polls : Nat → PollOutcome) (handler : Nat → String → HandlerOutcome)
    (k fuel : Nat) (hrun : ∀ i, i < k → running i = true)
    (hstop : running k = false) (hfuel : k < fuel) :
    process_queue running polls handler fuel 0 =
      ((List.range k).map
        (fun i => processIteration (polls i) (handler i))).join ∧
    (∀ (hnd : String → HandlerOutcome) (msgs : List InMessage),
      processMessages hnd msgs =
        (msgs.filter (fun m =>
          decide (hnd m.message_id = HandlerOutcome.ok))).map
          (fun m => m.receipt_handle)) := by
  constructor
  · have h := process_queue_upto running polls handler k 0 fuel hfuel
      (by intro i hi; rw [Nat.zero_add]; exact hrun i hi)
      (by rw [Nat.zero_add]; exact hstop)
    simpa using h
  · intro hnd msgs
    exact processMessages_filter hnd msgs

def wMsgIn (k : Nat) : InMessage :=
  { message_id := toString k, receipt_handle := "r" ++ toString k }

def wRunning : Nat → Bool := fun i => decide (i < 2)

def wPolls : Nat → PollOutcome := fun i =>
  if i = 0 then PollOutcome.msgs [wMsgIn 1, wMsgIn 2, wMsgIn 3]
  else PollOutcome.raiseE

def wHandler : Nat → String → HandlerOutcome := fun _ s =>
  if s = "1" then HandlerOutcome.ok
  else if s = "2" then HandlerOutcome.fail
  else HandlerOutcome.exc

/-- Witness for C7: over two iterations (the second receive raising) with
mixed handler verdicts, only the successful message's receipt is deleted
and the loop still runs both iterations before the flag stops it. -/
theorem worker_ack_iff_and_stop_witness :
    process_queue wRunning wPolls wHandler 3 0 =
      ((List.range 2).map
        (fun i => processIteration (wPolls i) (wHandler i))).join ∧
    process_queue wRunning wPolls wHandler 3 0 = ["r1"] :=
  ⟨(worker_ack_iff_and_stop wRunning wPolls wHandler 2 3 (by decide)
      (by decide) (by decide)).1,
   by decide⟩

lemma lookupInst_append_self (key : String × KW)
    (l : List ((String × KW) × ChannelInstance)) (inst : ChannelInstance)
    (h : lookupInst key l = none) :
    lookupInst key (l ++ [(key, inst)]) = some inst := by
  induction l with
  | nil => simp [lookupInst]
  | cons e es ih =>
    by_cases he : e.1 = key
    · simp [lookupInst, he] at h
    · simp only [List.cons_append, lookupInst, if_neg he] at h ⊢
      exact ih h

/-- The settings-derived default configs: the line channel token comes from
the environment. -/
def wDflt : String → KW := fun t =>
  if t = "line" then [("channel_access_token", "tok")] else []

def wInst0 : ChannelInstance :=
  { ctype := "line", config := [("channel_access_token", "tok")], uid := 0 }

def wFac1 : ChannelFactory :=
  { registered := ["line"], instances := [(("line", []), wInst0)],
    next_uid := 1 }

def wInst1 : ChannelInstance :=
  { ctype := "line", config := [("channel_access_token", "tok")], uid := 1 }

def wFac2 : ChannelFactory :=
  { registered := ["line"],
    instances := [(("line", []), wInst0),
      (("line", [("channel_access_token", "tok")]), wInst1)],
    next_uid := 2 }

/-- Counterexample for C9: a create_channel call with no kwargs (defaulted
to the line token config) followed by a call passing exactly that same
configuration content yields two distinct cached instances whose
configuration contents are equal, so the factory does not keep at most one
instance per distinct configuration content and the second identical-config
call does not get the first instance back. -/
theorem factory_config_cache_counterexample :
    ChannelFactory.create_channel ChannelFactory.init "line" [] wDflt =
      Except.ok (wInst0, wFac1) ∧
    ChannelFactory.create_channel wFac1 "line"
      [("channel_access_token", "tok")] wDflt = Except.ok (wInst1, wFac2) ∧
    wInst0.config = wInst1.config ∧ wInst0 ≠ wInst1 ∧
    wFac2.get_instance_count = 2 := by
  refine ⟨by rfl, by rfl, rfl, by decide, rfl⟩

/-- C9 amended: the cache is keyed by the channel type and the kwargs as
passed (sorted), before defaults are substituted: an immediately repeated
create_channel call with the identical kwargs returns the same cached
instance and leaves the factory unchanged; only the empty-kwargs call is
defaulted, under its own key. -/
lemma create_channel_cache_hit (f : ChannelFactory) (ctype : String)
    (kwargs : KW) (defaults : String → KW) (inst : ChannelInstance)
    (hreg : ¬ ctype ∉ f.registered)
    (hl : lookupInst (ctype, sortKW kwargs) f.instances = some inst) :
    ChannelFactory.create_channel f ctype kwargs defaults =
      Except.ok (inst, f) := by
  unfold ChannelFactory.create_channel
  simp [hreg, hl]

theorem factory_same_kwargs_cached (f : ChannelFactory) (ctype : String)
    (kwargs : KW) (defaults : String → KW) (inst : ChannelInstance)
    (f2 : ChannelFactory)
    (h : ChannelFactory.create_channel f ctype kwargs defaults =
      Except.ok (inst, f2)) :
    ChannelFactory.create_channel f2 ctype kwargs defaults =
      Except.ok (inst, f2) := by
  simp only [ChannelFactory.create_channel] at h
  by_cases hreg : ctype ∉ f.registered
  · simp [hreg] at h
  · rw [if_neg hreg] at h
    cases hl : lookupInst (ctype, sortKW kwargs) f.instances with
    | some i =>
      simp only [hl, Except.ok.injEq, Prod.mk.injEq] at h
      obtain ⟨h1, h2⟩ := h
      subst h1
      subst h2
      exact create_channel_cache_hit f ctype kwargs defaults i hreg hl
    | none =>
      simp only [hl] at h
      split at h
      all_goals split at h
      all_goals
        first
        | exact Except.noConfusion h
        | (simp only [Except.ok.injEq, Prod.mk.injEq] at h
           obtain ⟨h1, h2⟩ := h
           subst h1
           subst h2
           exact create_channel_cache_hit _ ctype kwargs defaults _ hreg
             (lookupInst_append_self (ctype, sortKW kwargs) f.instances _ hl))

/-- Witness for C9 amended: repeating the empty-kwargs call on the factory
that already cached the defaulted line instance returns that same instance
with the factory unchanged. -/
theorem factory_same_kwargs_cached_witness :
    ChannelFactory.create_channel wFac1 "line" [] wDflt =
      Except.ok (wInst0, wFac1) :=
  factory_same_kwargs_cached ChannelFactory.init "line" [] wDflt wInst0 wFac1
    (by rfl)
